import Mathlib

/-!
# CustomerCountDisplay: the data reconciliation core

A shallow embedding of the handlers of `src/screens/CustomerCountDisplay.js`.
The React component keeps its data in `useState` cells; here the cells are the
fields of `State`, every handler is a function from the state before to the
state after, and what a handler does to the outside world (remote calls,
console output, the `handleOverlay` callback) is returned as a list of
`Effect`s.  The remote service is a parameter (`Remote`): each request either
is rejected (`none`) or resolves with a payload.
-/

namespace CustomerCountDisplay

/-! ## JavaScript values -/

/-- A JavaScript object used as a dictionary: `o k = none` when `k` is not a
property of `o`. Property keys are strings. -/
abbrev JsObject (V : Type) := String → Option V

/-- The object literal with no property. -/
def JsObject.empty {V : Type} : JsObject V := fun _ => none

/-- The spread-and-override `{ ...o, [k]: v }`. -/
def JsObject.set {V : Type} (o : JsObject V) (k : String) (v : V) : JsObject V :=
  fun key => if key = k then some v else o key

/-- The copy of `o` after `delete copy[k]`. -/
def JsObject.delete {V : Type} (o : JsObject V) (k : String) : JsObject V :=
  fun key => if key = k then none else o key

/-- Truthiness of a value that is a string or `undefined`: `undefined` and the
empty string are falsy, every other string is truthy. -/
def jsTruthy : Option String → Bool
  | none => false
  | some v => v != ""

/-- The characters `String.prototype.trim` strips: WhiteSpace and
LineTerminator of ECMAScript. -/
def isJsWhiteSpace (c : Char) : Bool :=
  let n := c.toNat
  n = 0x09 || n = 0x0A || n = 0x0B || n = 0x0C || n = 0x0D || n = 0x20 ||
  n = 0xA0 || n = 0x1680 || (0x2000 ≤ n && n ≤ 0x200A) || n = 0x2028 ||
  n = 0x2029 || n = 0x202F || n = 0x205F || n = 0x3000 || n = 0xFEFF

/-- The test `!text.trim()`: the text holds nothing but white space. -/
def trimIsEmpty (text : String) : Bool :=
  text.toList.all isJsWhiteSpace

/-- A `Date` chosen in the picker, by its local-time fields. -/
structure JsDate where
  year : Nat
  month : Nat
  day : Nat
  hours : Nat
  minutes : Nat
  seconds : Nat
deriving DecidableEq, Repr

/-- Decimal digits of `n`, padded on the left with zeros to `width`. -/
def padStart (width : Nat) (n : Nat) : String :=
  let digits := toString n
  String.mk (List.replicate (width - digits.length) '0') ++ digits

/-- The call `format(date, "yyyy-MM-dd'T'HH:mm:ss")` of date-fns. -/
def format (d : JsDate) : String :=
  padStart 4 d.year ++ "-" ++ padStart 2 d.month ++ "-" ++ padStart 2 d.day ++ "T" ++
    padStart 2 d.hours ++ ":" ++ padStart 2 d.minutes ++ ":" ++ padStart 2 d.seconds

/-! ## Data model -/

/-- A customer record as the service sends it. The id is a string, as in the
data model, so that `item.id === itemId` and the property key `[itemId]`
compare the same text. `id`, `description` and `reminder_datetime` may be
missing (`none`). -/
structure CustomerRecord where
  id : Option String
  name : String
  email : String
  phone_number : String
  salesperson_name : String
  description : Option String
  visit_type : String
  reminder_datetime : Option String
deriving DecidableEq, Repr

/-- The body (`response.data`) of a category response. -/
inductive Payload where
  /-- an array of records -/
  | array (items : List CustomerRecord)
  /-- `null` or `undefined`: reading a property of it throws -/
  | nullish
  /-- any other value, with its `length` property when it has one -/
  | other (length : Option Nat)
deriving DecidableEq, Repr

/-- The expression `response.data.length`: `none` when reading it throws, else
the value read (`none` inside for `undefined`). -/
def Payload.length : Payload → Option (Option Nat)
  | .array items => some (some items.length)
  | .nullish => none
  | .other len => some len

/-- The remote service. Every request answers `none` when the promise is
rejected (no credential, network error, non-2xx status, or a body whose
fields cannot be read) and `some` payload when it resolves. `getReminder` is
asked once per list position, so it takes the position with the id. -/
structure Remote where
  /-- `GET /customers/{category}/` -/
  listByCategory : String → Option Payload
  /-- `GET /reminders/{id}/`, answering `data.reminder_datetime` -/
  getReminder : Nat → String → Option (Option String)
  /-- `PUT /customers/{id}/update/` with `{description}`, answering `data.description` -/
  updateFeedback : String → String → Option (Option String)
  /-- `POST /reminders/{id}/` with `{customer_id, reminder_datetime}`, answering
  `data.reminder_datetime` -/
  upsertReminder : String → String → Option (Option String)

/-- What a handler does to the outside world. -/
inductive Effect where
  | getCategory (category : String)
  | getReminder (id : String)
  | putFeedback (id : String) (description : String)
  | postReminder (id : String) (customer_id : String) (reminder_datetime : String)
  | consoleLog (message : String)
  | consoleError (message : String)
  | handleOverlay
deriving DecidableEq, Repr

/-- The write calls: the feedback PUT and the reminder POST. -/
def Effect.isWrite : Effect → Bool
  | .putFeedback _ _ => true
  | .postReminder _ _ _ => true
  | _ => false

/-- The calls to the remote service, reads and writes. -/
def Effect.isRemoteCall : Effect → Bool
  | .getCategory _ => true
  | .getReminder _ => true
  | .putFeedback _ _ => true
  | .postReminder _ _ _ => true
  | _ => false

/-- The `useState` cells of the component that the handlers read and write. -/
structure State where
  isCardClicked : Option String
  clickedCardData : List CustomerRecord
  visitorCount : Option Nat
  shopperCount : Option Nat
  selectedItemDateTime : JsObject JsDate
  isDateTimePickerVisible : Bool
  selectedItemId : Option String
  loading : Bool
  editedFeedback : JsObject String

/-- The state of a freshly mounted component. -/
def State.initial : State where
  isCardClicked := none
  clickedCardData := []
  visitorCount := some 0
  shopperCount := some 0
  selectedItemDateTime := JsObject.empty
  isDateTimePickerVisible := false
  selectedItemId := none
  loading := false
  editedFeedback := JsObject.empty

/-! ## fetchVisitorAndShopperCounts (lines 38-57) -/

/-- The `catch` and `finally` blocks of `fetchVisitorAndShopperCounts`. -/
def fetchCountsCatch (s : State) (done : List Effect) : State × List Effect :=
  ({ s with visitorCount := some 0, shopperCount := some 0, loading := false },
    done ++ [.consoleError "Error fetching customer counts:", .handleOverlay])

/-- The handler `fetchVisitorAndShopperCounts`: the two category requests are
awaited one after the other, then both counts are set; any rejection or throw
goes to the `catch` block. -/
def fetchVisitorAndShopperCounts (remote : Remote) (s : State) : State × List Effect :=
  match remote.listByCategory "visitors" with
  | none => fetchCountsCatch s [.handleOverlay, .getCategory "visitors"]
  | some visitors =>
    let calls := [Effect.handleOverlay, .getCategory "visitors", .getCategory "shoppers"]
    match remote.listByCategory "shoppers" with
    | none => fetchCountsCatch s calls
    | some shoppers =>
      match visitors.length with
      | none => fetchCountsCatch s calls
      | some visitorLen =>
        let s1 := { s with visitorCount := visitorLen }
        match shoppers.length with
        | none => fetchCountsCatch s1 calls
        | some shopperLen =>
          ({ s1 with shopperCount := shopperLen, loading := false }, calls ++ [.handleOverlay])

/-- The handler `onRefresh`. -/
def onRefresh (remote : Remote) (s : State) : State × List Effect :=
  let r := fetchVisitorAndShopperCounts remote { s with loading := true }
  ({ r.1 with loading := false }, r.2)

/-! ## handleCardClick (lines 73-121) -/

/-- The callback mapped over `response.data`: one reminder request for a record
with a truthy id, whose failure is caught and gives the record back as it
was; a record with a falsy id is given back without a request. -/
def enrichItem (remote : Remote) (index : Nat) (item : CustomerRecord) :
    CustomerRecord × List Effect :=
  match item.id with
  | some id =>
    if jsTruthy (some id) then
      match remote.getReminder index id with
      | some reminder => ({ item with reminder_datetime := reminder }, [.getReminder id])
      | none => (item, [.getReminder id, .consoleError "Error fetching reminder data:"])
    else (item, [])
  | none => (item, [])

/-- The expression `Promise.all(response.data.map(...))`, the items numbered
from `start`. The results come in the order of the items. (The requests are
in flight together; the trace lists them item by item.) -/
def enrichFrom (remote : Remote) : Nat → List CustomerRecord → List CustomerRecord × List Effect
  | _, [] => ([], [])
  | start, item :: rest =>
    let head := enrichItem remote start item
    let tail := enrichFrom remote (start + 1) rest
    (head.1 :: tail.1, head.2 ++ tail.2)

/-- The handler `handleCardClick`. A card type other than the two categories
returns right after `setLoading(true)`, before the `try` block. -/
def handleCardClick (remote : Remote) (cardType : String) (s : State) : State × List Effect :=
  let s1 := { s with loading := true }
  if cardType = "visitors" ∨ cardType = "shoppers" then
    match remote.listByCategory cardType with
    | some (.array data) =>
      let dataWithReminders := enrichFrom remote 0 data
      ({ s1 with clickedCardData := dataWithReminders.1, isCardClicked := some cardType,
                 loading := false },
        [.getCategory cardType] ++ dataWithReminders.2)
    | some _ =>
      ({ s1 with clickedCardData := [], isCardClicked := some cardType, loading := false },
        [.getCategory cardType, .consoleError "Invalid API response format"])
    | none =>
      ({ s1 with clickedCardData := [], loading := false },
        [.getCategory cardType, .consoleError ("Error fetching " ++ cardType ++ " data")])
  else
    (s1, [.consoleError "Invalid card type"])

/-! ## The date picker and the feedback field (lines 123-148) -/

/-- The handler `showDateTimePicker`. -/
def showDateTimePicker (itemId : String) (s : State) : State :=
  { s with selectedItemId := some itemId, isDateTimePickerVisible := true }

/-- The handler `hideDateTimePicker`. -/
def hideDateTimePicker (s : State) : State :=
  { s with isDateTimePickerVisible := false }

/-- The handler `handleDateConfirm`: the property key is `selectedItemId`
turned into a string (`null` gives the key "null"). -/
def handleDateConfirm (date : JsDate) (s : State) : State :=
  { s with selectedItemDateTime := s.selectedItemDateTime.set (s.selectedItemId.getD "null") date,
           isDateTimePickerVisible := false }

/-- The handler `handleFeedbackEdit`. -/
def handleFeedbackEdit (itemId : String) (newFeedback : String) (s : State) : State :=
  if trimIsEmpty newFeedback then
    { s with editedFeedback := s.editedFeedback.delete itemId }
  else
    { s with editedFeedback := s.editedFeedback.set itemId newFeedback }

/-! ## handleSaveAllDetails (lines 150-212) -/

/-- The method `Array.prototype.findIndex`: the first position whose element
satisfies `p`, `none` for the answer -1. -/
def findIndex {α : Type} (p : α → Bool) : List α → Option Nat
  | [] => none
  | x :: xs => if p x then some 0 else (findIndex p xs).map (· + 1)

/-- Where the `try` block of `handleSaveAllDetails` stands when it is left. -/
structure SaveRun where
  /-- the object `editedItem`, which the block assigns to in place -/
  editedItem : CustomerRecord
  updateDescription : Bool
  updateReminder : Bool
  /-- a request was rejected and control went to `catch` -/
  threw : Bool
  calls : List Effect

/-- The second write of the `try` block: the reminder POST, made when
`selectedItemDateTime[itemId]` is set. -/
def saveReminder (remote : Remote) (itemId : String) (date : Option JsDate) (run : SaveRun) :
    SaveRun :=
  match date with
  | none => run
  | some d =>
    let call := Effect.postReminder itemId itemId (format d)
    match remote.upsertReminder itemId (format d) with
    | none => { run with threw := true, calls := run.calls ++ [call] }
    | some confirmed =>
      { run with updateReminder := true,
                 editedItem := { run.editedItem with reminder_datetime := confirmed },
                 calls := run.calls ++ [call] }

/-- The two writes of the `try` block: the feedback PUT, made when
`editedFeedback[itemId]` is truthy, then the reminder POST. A rejected PUT
skips the POST. -/
def saveWrites (remote : Remote) (itemId : String) (feedback : Option String)
    (date : Option JsDate) (editedItem : CustomerRecord) : SaveRun :=
  let start : SaveRun :=
    { editedItem := editedItem, updateDescription := false, updateReminder := false,
      threw := false, calls := [] }
  if jsTruthy feedback then
    let feedbackDescription := feedback.getD ""
    let call := Effect.putFeedback itemId feedbackDescription
    match remote.updateFeedback itemId feedbackDescription with
    | none => { start with threw := true, calls := [call] }
    | some confirmed =>
      saveReminder remote itemId date
        { start with updateDescription := true,
                     editedItem := { editedItem with description := confirmed },
                     calls := [call] }
  else
    saveReminder remote itemId date start

/-- The handler `handleSaveAllDetails`. `editedItem` is the object the state
array holds, so what the `try` block assigns to it shows in the list also
when a later request is rejected. -/
def handleSaveAllDetails (remote : Remote) (itemId : String) (s : State) : State × List Effect :=
  match findIndex (fun item => item.id == some itemId) s.clickedCardData with
  | none => (s, [.consoleError "Item not found for editing"])
  | some editedItemIndex =>
    match s.clickedCardData[editedItemIndex]? with
    | none => (s, [])
    | some editedItem =>
      let run := saveWrites remote itemId (s.editedFeedback itemId)
        (s.selectedItemDateTime itemId) editedItem
      if run.threw then
        ({ s with clickedCardData := s.clickedCardData.set editedItemIndex run.editedItem,
                  loading := false },
          run.calls ++ [.consoleError "Error saving details:"])
      else if run.updateDescription || run.updateReminder then
        ({ s with clickedCardData := s.clickedCardData.set editedItemIndex run.editedItem,
                  loading := false },
          run.calls ++ [.consoleLog "Details saved successfully"])
      else
        ({ s with loading := false }, run.calls ++ [.consoleLog "No updates made"])

/-! ## handleModalClose and renderDataList (lines 213-218, 239-263) -/

/-- The handler `handleModalClose`. -/
def handleModalClose (s : State) : State × List Effect :=
  ({ s with isCardClicked := none, clickedCardData := [], editedFeedback := JsObject.empty },
    [.handleOverlay])

/-- The rows of `renderDataList`: the list reversed, `null` (here `none`) for
an item with a falsy id, a row for every other item. -/
def renderDataList (s : State) : List (Option CustomerRecord) :=
  s.clickedCardData.reverse.map fun item =>
    if jsTruthy item.id then some item else none

/-! ## Concrete data used by the worked scenarios -/

/-- A record with id "7" and nothing else filled in but the given feedback. -/
def sampleRecord (feedback : String) : CustomerRecord where
  id := some "7"
  name := "Ada"
  email := "ada@example.org"
  phone_number := "555"
  salesperson_name := "Sam"
  description := some feedback
  visit_type := "visitors"
  reminder_datetime := none

/-- A date picked in the date picker. -/
def sampleDate : JsDate where
  year := 2024
  month := 1
  day := 1
  hours := 10
  minutes := 0
  seconds := 0

/-- A service whose visitors list holds one record and whose shoppers request
is rejected; reminders are found, writes are confirmed as sent. -/
def shoppersDown : Remote where
  listByCategory := fun category =>
    if category = "visitors" then some (.array [sampleRecord "old"]) else none
  getReminder := fun _ _ => some (some "2024-01-01T10:00:00")
  updateFeedback := fun _ description => some (some description)
  upsertReminder := fun _ datetime => some (some datetime)

/-- A service that confirms every write with the text "confirmed" and finds no
category list. -/
def confirming : Remote where
  listByCategory := fun _ => none
  getReminder := fun _ _ => none
  updateFeedback := fun _ _ => some (some "confirmed")
  upsertReminder := fun _ _ => some (some "2030-05-06T07:08:09")

/-- A detail view showing two records that both carry the id "7", with a
feedback edit typed for that id. -/
def twoWithSameId : State :=
  { State.initial with
    isCardClicked := some "visitors"
    clickedCardData := [sampleRecord "first", sampleRecord "second"]
    editedFeedback := JsObject.empty.set "7" "typed" }

/-- A detail view showing one record, with a feedback edit typed for it and no
date picked. -/
def feedbackTyped : State :=
  { State.initial with
    isCardClicked := some "visitors"
    clickedCardData := [sampleRecord "old"]
    editedFeedback := JsObject.empty.set "7" "typed" }

/-- A detail view showing one record, with a feedback edit typed and a date
picked for it. -/
def bothEdited : State :=
  { feedbackTyped with selectedItemDateTime := JsObject.empty.set "7" sampleDate }

/-- A detail view showing one record with no edit. -/
def nothingEdited : State :=
  { State.initial with
    isCardClicked := some "visitors"
    clickedCardData := [sampleRecord "old"] }

/-- The fields of a record that come with the category response and that
enrichment does not write: all but `reminder_datetime`. -/
def CustomerRecord.baseFields (r : CustomerRecord) :
    Option String × String × String × String × String × Option String × String :=
  (r.id, r.name, r.email, r.phone_number, r.salesperson_name, r.description, r.visit_type)

/-- A record with id "8". -/
def otherRecord : CustomerRecord :=
  { sampleRecord "other" with id := some "8" }

/-- A record that came without an id. -/
def idLess : CustomerRecord :=
  { sampleRecord "nobody" with id := none }

/-- A service whose category lists hold three records, the last without an id,
and whose reminder request fails for the first position only. -/
def firstReminderDown : Remote where
  listByCategory := fun _ => some (.array [sampleRecord "old", otherRecord, idLess])
  getReminder := fun index _ => if index = 0 then none else some (some "2024-01-01T10:00:00")
  updateFeedback := fun _ _ => none
  upsertReminder := fun _ _ => none

/-- The detail view as `handleCardClick` opens it on the visitors card. -/
def detailOpen : State :=
  (handleCardClick firstReminderDown "visitors" State.initial).1

/-- The detail view after the user picked a date for record "7" and typed
feedback for it. -/
def detailEdited : State :=
  handleFeedbackEdit "7" "hello" (handleDateConfirm sampleDate (showDateTimePicker "7" detailOpen))

/-! ## Lemmas on findIndex -/

theorem findIndex_some {α : Type} (p : α → Bool) :
    ∀ (l : List α) (i : Nat), findIndex p l = some i →
      ∃ x, l[i]? = some x ∧ p x = true := by
  intro l
  induction l with
  | nil => intro i h; simp [findIndex] at h
  | cons a l ih =>
    intro i h
    unfold findIndex at h
    by_cases hp : p a = true
    · simp [hp] at h
      subst h
      exact ⟨a, by simp, hp⟩
    · simp [hp] at h
      obtain ⟨k, hk, rfl⟩ := h
      obtain ⟨x, hx, hpx⟩ := ih k hk
      exact ⟨x, by simpa using hx, hpx⟩

theorem findIndex_of_mem {α : Type} (p : α → Bool) :
    ∀ (l : List α), (∃ x ∈ l, p x = true) → ∃ i, findIndex p l = some i := by
  intro l
  induction l with
  | nil => intro h; simp at h
  | cons a l ih =>
    intro h
    unfold findIndex
    by_cases hp : p a = true
    · exact ⟨0, by simp [hp]⟩
    · obtain ⟨x, hx, hpx⟩ := h
      have hx2 : x ∈ l := by
        rcases List.mem_cons.mp hx with rfl | h2
        · exact absurd hpx hp
        · exact h2
      obtain ⟨k, hk⟩ := ih ⟨x, hx2, hpx⟩
      exact ⟨k + 1, by simp [hp, hk]⟩

/-! ## The counts (C9) -/

/-- C9: whatever the two category requests answer, `fetchVisitorAndShopperCounts`
ends with the lengths of both lists when both answer an array, with 0 and 0
when either request is rejected, and in every case either with 0 and 0 or
with what was read from both answers: never a real count next to a zero put
there by the failure path. -/
theorem fetchVisitorAndShopperCounts_fail_together (remote : Remote) (s : State) :
    (∀ vs ss, remote.listByCategory "visitors" = some (.array vs) →
        remote.listByCategory "shoppers" = some (.array ss) →
        (fetchVisitorAndShopperCounts remote s).1.visitorCount = some vs.length ∧
        (fetchVisitorAndShopperCounts remote s).1.shopperCount = some ss.length) ∧
    (remote.listByCategory "visitors" = none ∨ remote.listByCategory "shoppers" = none →
        (fetchVisitorAndShopperCounts remote s).1.visitorCount = some 0 ∧
        (fetchVisitorAndShopperCounts remote s).1.shopperCount = some 0) ∧
    (((fetchVisitorAndShopperCounts remote s).1.visitorCount = some 0 ∧
        (fetchVisitorAndShopperCounts remote s).1.shopperCount = some 0) ∨
      ∃ visitors shoppers, remote.listByCategory "visitors" = some visitors ∧
        remote.listByCategory "shoppers" = some shoppers ∧
        visitors.length = some (fetchVisitorAndShopperCounts remote s).1.visitorCount ∧
        shoppers.length = some (fetchVisitorAndShopperCounts remote s).1.shopperCount) := by
  refine ⟨?_, ?_, ?_⟩
  · intro vs ss hv hs
    simp [fetchVisitorAndShopperCounts, hv, hs, Payload.length]
  · intro h
    rcases h with h | h
    · simp [fetchVisitorAndShopperCounts, h, fetchCountsCatch]
    · cases hv : remote.listByCategory "visitors" <;>
        simp [fetchVisitorAndShopperCounts, h, hv, fetchCountsCatch]
  · cases hv : remote.listByCategory "visitors" with
    | none => left; simp [fetchVisitorAndShopperCounts, hv, fetchCountsCatch]
    | some visitors =>
      cases hs : remote.listByCategory "shoppers" with
      | none => left; simp [fetchVisitorAndShopperCounts, hv, hs, fetchCountsCatch]
      | some shoppers =>
        cases hvl : visitors.length with
        | none => left; simp [fetchVisitorAndShopperCounts, hv, hs, hvl, fetchCountsCatch]
        | some vl =>
          cases hsl : shoppers.length with
          | none => left; simp [fetchVisitorAndShopperCounts, hv, hs, hvl, hsl, fetchCountsCatch]
          | some sl =>
            right
            exact ⟨visitors, shoppers, rfl, rfl, by
              simp [fetchVisitorAndShopperCounts, hv, hs, hvl, hsl]⟩

/-- C9 at a concrete service: visitors answer one record, the shoppers request
is rejected, and both counts end at 0. -/
theorem fetchVisitorAndShopperCounts_fail_together_witness :
    shoppersDown.listByCategory "visitors" = some (.array [sampleRecord "old"]) ∧
    shoppersDown.listByCategory "shoppers" = none ∧
    (fetchVisitorAndShopperCounts shoppersDown State.initial).1.visitorCount = some 0 ∧
    (fetchVisitorAndShopperCounts shoppersDown State.initial).1.shopperCount = some 0 :=
  ⟨by decide, by decide,
    (fetchVisitorAndShopperCounts_fail_together shoppersDown State.initial).2.1
      (Or.inr (by decide))⟩

/-! ## The busy flag of handleCardClick (C10) -/

/-- C10, the two categories: for "visitors" and "shoppers" the `finally` block
runs whatever the service answers, and `loading` ends false. -/
theorem handleCardClick_category_loading (remote : Remote) (cardType : String) (s : State)
    (hcard : cardType = "visitors" ∨ cardType = "shoppers") :
    (handleCardClick remote cardType s).1.loading = false := by
  unfold handleCardClick
  simp only [hcard, if_true]
  split <;> rfl

/-- C10 on the code: a card type that is neither "visitors" nor "shoppers"
(the Total Customers card passes "registeredCustomers") makes `handleCardClick`
return before its `try` block, with `loading` still true and nothing else
changed. -/
theorem handleCardClick_other_card_stays_loading (remote : Remote) (s : State) :
    (handleCardClick remote "registeredCustomers" s).1.loading = true ∧
    (handleCardClick remote "registeredCustomers" s).2 =
      [Effect.consoleError "Invalid card type"] ∧
    (handleCardClick remote "registeredCustomers" s).1 = { s with loading := true } := by
  have h : ¬ ("registeredCustomers" = "visitors" ∨ "registeredCustomers" = "shoppers") := by
    decide
  simp [handleCardClick, h]

/-! ## Closing the detail view (C3) -/

/-- What `handleModalClose` does, for every state: the category, the record
list and the feedback edits are reset; the reminder edits are kept. -/
theorem handleModalClose_state (s : State) :
    (handleModalClose s).1.isCardClicked = none ∧
    (handleModalClose s).1.clickedCardData = [] ∧
    (∀ id, (handleModalClose s).1.editedFeedback id = none) ∧
    (handleModalClose s).1.selectedItemDateTime = s.selectedItemDateTime :=
  ⟨rfl, rfl, fun _ => rfl, rfl⟩

/-- C3 on the code: open the visitors card, pick a date for record "7", type
feedback for it, close the detail view. Before closing both edits are there;
after it the feedback edit, the list and the category are gone, and the picked
date is still in `selectedItemDateTime`. -/
theorem handleModalClose_keeps_reminder_edit :
    detailEdited.editedFeedback "7" = some "hello" ∧
    detailEdited.selectedItemDateTime "7" = some sampleDate ∧
    (handleModalClose detailEdited).1.editedFeedback "7" = none ∧
    (handleModalClose detailEdited).1.clickedCardData = [] ∧
    (handleModalClose detailEdited).1.isCardClicked = none ∧
    (handleModalClose detailEdited).1.selectedItemDateTime "7" = some sampleDate := by
  decide

/-! ## The feedback scratch entry (C7) -/

/-- C7: `handleFeedbackEdit itemId text` removes the feedback edit of `itemId`
when `text` trims to nothing and sets it to exactly `text` otherwise; typing
"hello" and then the empty text leaves no entry; the feedback edits of every
other id and all the reminder edits stay as they were. -/
theorem handleFeedbackEdit_entry (s : State) (itemId text : String) :
    (handleFeedbackEdit itemId text s).editedFeedback itemId
      = (if trimIsEmpty text then none else some text) ∧
    (handleFeedbackEdit itemId "" (handleFeedbackEdit itemId "hello" s)).editedFeedback itemId
      = none ∧
    (∀ other, other ≠ itemId →
      (handleFeedbackEdit itemId text s).editedFeedback other = s.editedFeedback other) ∧
    (handleFeedbackEdit itemId text s).selectedItemDateTime = s.selectedItemDateTime := by
  refine ⟨?_, ?_, ?_, ?_⟩
  · unfold handleFeedbackEdit
    split <;> simp [JsObject.set, JsObject.delete]
  · have h : trimIsEmpty "" = true := by decide
    simp [handleFeedbackEdit, h, JsObject.delete]
  · intro other hne
    unfold handleFeedbackEdit
    split <;> simp [JsObject.set, JsObject.delete, hne]
  · unfold handleFeedbackEdit
    split <;> rfl

/-! ## Saving with nothing to save (C8) -/

/-- C8: when the list holds a record with id `itemId` and there is neither a
truthy feedback edit nor a picked date for it, `handleSaveAllDetails` makes no
remote call, logs "No updates made" and nothing else, and leaves the record
list and both scratch objects as they were (the state is the old one with
`loading` false). -/
theorem handleSaveAllDetails_nothing_to_save (remote : Remote) (itemId : String) (s : State)
    (hmem : ∃ item ∈ s.clickedCardData, item.id = some itemId)
    (hfeedback : jsTruthy (s.editedFeedback itemId) = false)
    (hdate : s.selectedItemDateTime itemId = none) :
    (handleSaveAllDetails remote itemId s).2.filter Effect.isRemoteCall = [] ∧
    (handleSaveAllDetails remote itemId s).2 = [Effect.consoleLog "No updates made"] ∧
    (handleSaveAllDetails remote itemId s).1 = { s with loading := false } ∧
    (handleSaveAllDetails remote itemId s).1.clickedCardData = s.clickedCardData ∧
    (handleSaveAllDetails remote itemId s).1.editedFeedback = s.editedFeedback ∧
    (handleSaveAllDetails remote itemId s).1.selectedItemDateTime = s.selectedItemDateTime := by
  obtain ⟨i, hi⟩ := findIndex_of_mem (fun item => item.id == some itemId) s.clickedCardData
    (by obtain ⟨item, hin, hid⟩ := hmem; exact ⟨item, hin, by simp [hid]⟩)
  obtain ⟨x, hx, _⟩ := findIndex_some _ _ _ hi
  simp [handleSaveAllDetails, hi, hx, saveWrites, saveReminder, hfeedback, hdate,
    Effect.isRemoteCall]

/-- C8 at a concrete state: one record, no edit. -/
theorem handleSaveAllDetails_nothing_to_save_witness :
    (handleSaveAllDetails confirming "7" nothingEdited).2
      = [Effect.consoleLog "No updates made"] ∧
    (handleSaveAllDetails confirming "7" nothingEdited).1.clickedCardData
      = [sampleRecord "old"] :=
  have h := handleSaveAllDetails_nothing_to_save confirming "7" nothingEdited
    ⟨sampleRecord "old", by simp [nothingEdited], rfl⟩ (by decide) (by decide)
  ⟨h.2.1, h.2.2.2.1⟩

/-! ## Saving an edited record (C1, C2) -/

/-- C1 as stated fails when two records carry the same id: with the list
[first, second], both with id "7", the id is present at index 1, yet a
successful save of "7" rewrites position 0 and leaves position 1 as it was. -/
theorem handleSaveAllDetails_same_id_counterexample :
    twoWithSameId.clickedCardData[1]? = some (sampleRecord "second") ∧
    (sampleRecord "second").id = some "7" ∧
    jsTruthy (twoWithSameId.editedFeedback "7") = true ∧
    confirming.updateFeedback "7" ((twoWithSameId.editedFeedback "7").getD "")
      = some (some "confirmed") ∧
    (handleSaveAllDetails confirming "7" twoWithSameId).1.clickedCardData
      = [sampleRecord "confirmed", sampleRecord "second"] ∧
    (handleSaveAllDetails confirming "7" twoWithSameId).1.clickedCardData[0]?
      ≠ twoWithSameId.clickedCardData[0]? ∧
    (handleSaveAllDetails confirming "7" twoWithSameId).1.clickedCardData[1]?
      ≠ some { sampleRecord "second" with description := some "confirmed" } := by
  decide

/-- C1, amended: let `i` be the first index at which `itemId` occurs in the
list (what `findIndex` answers), let at least one of the two edits be set and
let every attempted write be confirmed (`d` for the feedback, `r` for the
reminder). Then the list after `handleSaveAllDetails` has the same length,
every position other than `i` holds the record it held, and position `i` holds
the old record with `description` replaced by `d` when feedback was written
and `reminder_datetime` replaced by `r` when the reminder was written. -/
theorem handleSaveAllDetails_replaces_only_edited (remote : Remote) (itemId : String)
    (s : State) (i : Nat) (d r : Option String)
    (hfirst : findIndex (fun item => item.id == some itemId) s.clickedCardData = some i)
    (hedit : jsTruthy (s.editedFeedback itemId) = true ∨
      (s.selectedItemDateTime itemId).isSome = true)
    (hput : jsTruthy (s.editedFeedback itemId) = true →
      remote.updateFeedback itemId ((s.editedFeedback itemId).getD "") = some d)
    (hpost : ∀ date, s.selectedItemDateTime itemId = some date →
      remote.upsertReminder itemId (format date) = some r) :
    (handleSaveAllDetails remote itemId s).1.clickedCardData.length
      = s.clickedCardData.length ∧
    (∀ j, j ≠ i →
      (handleSaveAllDetails remote itemId s).1.clickedCardData[j]? = s.clickedCardData[j]?) ∧
    ∃ item, s.clickedCardData[i]? = some item ∧
      (handleSaveAllDetails remote itemId s).1.clickedCardData[i]? = some
        { item with
          description :=
            if jsTruthy (s.editedFeedback itemId) = true then d else item.description
          reminder_datetime :=
            if (s.selectedItemDateTime itemId).isSome = true then r
            else item.reminder_datetime } := by
  obtain ⟨item, hitem, _⟩ := findIndex_some _ _ _ hfirst
  have hlt : i < s.clickedCardData.length := by
    rcases Nat.lt_or_ge i s.clickedCardData.length with h | h
    · exact h
    · rw [List.getElem?_eq_none h] at hitem
      cases hitem
  cases hfb : jsTruthy (s.editedFeedback itemId) with
  | true =>
    have hp := hput hfb
    cases hdt : s.selectedItemDateTime itemId with
    | none =>
      refine ⟨?_, ?_, item, hitem, ?_⟩
      · simp [handleSaveAllDetails, hfirst, hitem, saveWrites, saveReminder, hfb, hp, hdt]
      · intro j hj
        simp [handleSaveAllDetails, hfirst, hitem, saveWrites, saveReminder, hfb, hp, hdt,
          List.getElem?_set_ne (Ne.symm hj)]
      · simp [handleSaveAllDetails, hfirst, hitem, saveWrites, saveReminder, hfb, hp, hdt,
          List.getElem?_set_self, hlt]
    | some date =>
      have hq := hpost date hdt
      refine ⟨?_, ?_, item, hitem, ?_⟩
      · simp [handleSaveAllDetails, hfirst, hitem, saveWrites, saveReminder, hfb, hp, hdt, hq]
      · intro j hj
        simp [handleSaveAllDetails, hfirst, hitem, saveWrites, saveReminder, hfb, hp, hdt, hq,
          List.getElem?_set_ne (Ne.symm hj)]
      · simp [handleSaveAllDetails, hfirst, hitem, saveWrites, saveReminder, hfb, hp, hdt, hq,
          List.getElem?_set_self, hlt]
  | false =>
    cases hdt : s.selectedItemDateTime itemId with
    | none => simp [hfb, hdt] at hedit
    | some date =>
      have hq := hpost date hdt
      refine ⟨?_, ?_, item, hitem, ?_⟩
      · simp [handleSaveAllDetails, hfirst, hitem, saveWrites, saveReminder, hfb, hdt, hq]
      · intro j hj
        simp [handleSaveAllDetails, hfirst, hitem, saveWrites, saveReminder, hfb, hdt, hq,
          List.getElem?_set_ne (Ne.symm hj)]
      · simp [handleSaveAllDetails, hfirst, hitem, saveWrites, saveReminder, hfb, hdt, hq,
          List.getElem?_set_self, hlt]

/-- C1 amended, at a concrete state: one record with a feedback edit and a
picked date, both writes confirmed; the record shows the confirmed feedback
and the confirmed reminder, which is not the locally formatted date. -/
theorem handleSaveAllDetails_replaces_only_edited_witness :
    (handleSaveAllDetails confirming "7" bothEdited).1.clickedCardData.length = 1 ∧
    (handleSaveAllDetails confirming "7" bothEdited).1.clickedCardData[0]? = some
      { sampleRecord "old" with
        description := some "confirmed"
        reminder_datetime := some "2030-05-06T07:08:09" } ∧
    format sampleDate = "2024-01-01T10:00:00" := by
  have h := handleSaveAllDetails_replaces_only_edited confirming "7" bothEdited 0
    (some "confirmed") (some "2030-05-06T07:08:09") (by decide) (by decide)
    (fun _ => rfl) (fun _ _ => rfl)
  obtain ⟨h1, _, item, hitem, hout⟩ := h
  have hi : item = sampleRecord "old" := by
    have : bothEdited.clickedCardData[0]? = some (sampleRecord "old") := rfl
    rw [this] at hitem
    exact (Option.some.inj hitem).symm
  subst hi
  refine ⟨h1, ?_, by decide⟩
  rw [hout]
  have e1 : jsTruthy (bothEdited.editedFeedback "7") = true := by decide
  have e2 : (bothEdited.selectedItemDateTime "7").isSome = true := by decide
  simp [e1, e2]

/-- C2 as stated fails in its last part: after a successful save of a
feedback-only edit (one PUT, no POST) the feedback edit of the id is still in
`editedFeedback`. -/
theorem handleSaveAllDetails_keeps_scratch_counterexample :
    jsTruthy (feedbackTyped.editedFeedback "7") = true ∧
    feedbackTyped.selectedItemDateTime "7" = none ∧
    (handleSaveAllDetails confirming "7" feedbackTyped).2
      = [Effect.putFeedback "7" "typed", Effect.consoleLog "Details saved successfully"] ∧
    (handleSaveAllDetails confirming "7" feedbackTyped).1.clickedCardData
      = [sampleRecord "confirmed"] ∧
    (handleSaveAllDetails confirming "7" feedbackTyped).1.editedFeedback "7" = some "typed" := by
  decide

/-- C2, amended: when the list holds a record with id `itemId`, the feedback
edit of `itemId` is truthy, no date is picked for it and the PUT is confirmed,
`handleSaveAllDetails` makes exactly one remote call, the feedback PUT with
the typed text, and no reminder POST; the `reminder_datetime` of every record
is what it was; and both scratch objects are left as they were, the feedback
edit of `itemId` included. -/
theorem handleSaveAllDetails_feedback_only (remote : Remote) (itemId : String) (s : State)
    (d : Option String)
    (hmem : ∃ item ∈ s.clickedCardData, item.id = some itemId)
    (hfeedback : jsTruthy (s.editedFeedback itemId) = true)
    (hdate : s.selectedItemDateTime itemId = none)
    (hput : remote.updateFeedback itemId ((s.editedFeedback itemId).getD "") = some d) :
    (handleSaveAllDetails remote itemId s).2.filter Effect.isWrite
      = [Effect.putFeedback itemId ((s.editedFeedback itemId).getD "")] ∧
    (handleSaveAllDetails remote itemId s).2.filter Effect.isRemoteCall
      = [Effect.putFeedback itemId ((s.editedFeedback itemId).getD "")] ∧
    (handleSaveAllDetails remote itemId s).1.clickedCardData.map (·.reminder_datetime)
      = s.clickedCardData.map (·.reminder_datetime) ∧
    (handleSaveAllDetails remote itemId s).1.editedFeedback = s.editedFeedback ∧
    (handleSaveAllDetails remote itemId s).1.selectedItemDateTime = s.selectedItemDateTime := by
  obtain ⟨i, hi⟩ := findIndex_of_mem (fun item => item.id == some itemId) s.clickedCardData
    (by obtain ⟨item, hin, hid⟩ := hmem; exact ⟨item, hin, by simp [hid]⟩)
  obtain ⟨x, hx, _⟩ := findIndex_some _ _ _ hi
  refine ⟨?_, ?_, ?_, ?_, ?_⟩
  · simp [handleSaveAllDetails, hi, hx, saveWrites, saveReminder, hfeedback, hdate, hput,
      Effect.isWrite]
  · simp [handleSaveAllDetails, hi, hx, saveWrites, saveReminder, hfeedback, hdate, hput,
      Effect.isRemoteCall]
  · simp only [handleSaveAllDetails, hi, hx, saveWrites, saveReminder, hfeedback, hdate, hput]
    simp only [if_true, Bool.true_or, Bool.false_eq_true, if_false]
    apply List.ext_getElem?
    intro j
    by_cases hj : i = j
    · subst hj
      have hlt : i < s.clickedCardData.length := by
        rcases Nat.lt_or_ge i s.clickedCardData.length with h | h
        · exact h
        · rw [List.getElem?_eq_none h] at hx
          cases hx
      have hget : s.clickedCardData[i] = x := by
        rw [List.getElem?_eq_getElem hlt] at hx
        exact Option.some.inj hx
      simp [List.getElem?_map, List.getElem?_set_self, hlt, hget]
    · simp [List.getElem?_map, List.getElem?_set_ne hj]
  · simp [handleSaveAllDetails, hi, hx, saveWrites, saveReminder, hfeedback, hdate, hput]
  · simp [handleSaveAllDetails, hi, hx, saveWrites, saveReminder, hfeedback, hdate, hput]

/-- C2 amended, at a concrete state: one record with a typed feedback edit. -/
theorem handleSaveAllDetails_feedback_only_witness :
    (handleSaveAllDetails confirming "7" feedbackTyped).2.filter Effect.isWrite
      = [Effect.putFeedback "7" "typed"] ∧
    (handleSaveAllDetails confirming "7" feedbackTyped).1.editedFeedback
      = feedbackTyped.editedFeedback :=
  have h := handleSaveAllDetails_feedback_only confirming "7" feedbackTyped (some "confirmed")
    ⟨sampleRecord "old", by simp [feedbackTyped], rfl⟩ (by decide) (by decide) rfl
  ⟨h.1, h.2.2.2.1⟩

/-! ## Enrichment (C4, C5, C6) -/

theorem enrichItem_baseFields (remote : Remote) (index : Nat) (item : CustomerRecord) :
    (enrichItem remote index item).1.baseFields = item.baseFields := by
  unfold enrichItem
  split
  · split
    · split <;> rfl
    · rfl
  · rfl

theorem enrichFrom_getElem? (remote : Remote) :
    ∀ (data : List CustomerRecord) (start i : Nat),
      (enrichFrom remote start data).1[i]?
        = (data[i]?).map (fun item => (enrichItem remote (start + i) item).1) := by
  intro data
  induction data with
  | nil => intro start i; simp [enrichFrom]
  | cons a rest ih =>
    intro start i
    cases i with
    | zero => simp [enrichFrom]
    | succ k =>
      simp only [enrichFrom, List.getElem?_cons_succ]
      rw [ih (start + 1) k]
      have : start + 1 + k = start + (k + 1) := by omega
      rw [this]

theorem enrichFrom_length (remote : Remote) :
    ∀ (data : List CustomerRecord) (start : Nat),
      (enrichFrom remote start data).1.length = data.length := by
  intro data
  induction data with
  | nil => intro start; simp [enrichFrom]
  | cons a rest ih => intro start; simp [enrichFrom, ih]

theorem handleCardClick_list (remote : Remote) (cardType : String) (s : State)
    (data : List CustomerRecord)
    (hcard : cardType = "visitors" ∨ cardType = "shoppers")
    (hfetch : remote.listByCategory cardType = some (.array data)) :
    handleCardClick remote cardType s =
      ({ s with clickedCardData := (enrichFrom remote 0 data).1, isCardClicked := some cardType,
                loading := false },
        [Effect.getCategory cardType] ++ (enrichFrom remote 0 data).2) := by
  unfold handleCardClick
  simp only [hcard, if_true, hfetch]

/-- C4: when the category request of `handleCardClick` answers the array
`data`, then whatever the reminder requests answer, the list it stores is no
longer than `data` (it has the same length) and its records carry, position by
position, the id and the other base fields of the records of `data`. -/
theorem handleCardClick_keeps_order (remote : Remote) (cardType : String) (s : State)
    (data : List CustomerRecord)
    (hcard : cardType = "visitors" ∨ cardType = "shoppers")
    (hfetch : remote.listByCategory cardType = some (.array data)) :
    (handleCardClick remote cardType s).1.clickedCardData.length ≤ data.length ∧
    (handleCardClick remote cardType s).1.clickedCardData.length = data.length ∧
    (handleCardClick remote cardType s).1.clickedCardData.map CustomerRecord.baseFields
      = data.map CustomerRecord.baseFields := by
  rw [handleCardClick_list remote cardType s data hcard hfetch]
  refine ⟨le_of_eq (enrichFrom_length remote data 0), enrichFrom_length remote data 0, ?_⟩
  apply List.ext_getElem?
  intro i
  simp only [List.getElem?_map, enrichFrom_getElem?]
  cases data[i]? with
  | none => rfl
  | some item => simp [enrichItem_baseFields]

/-- C4 at a concrete service: three records come back in the order sent. -/
theorem handleCardClick_keeps_order_witness :
    (handleCardClick firstReminderDown "visitors" State.initial).1.clickedCardData.length ≤ 3 ∧
    (handleCardClick firstReminderDown "visitors" State.initial).1.clickedCardData.map
        CustomerRecord.baseFields
      = [sampleRecord "old", otherRecord, idLess].map CustomerRecord.baseFields :=
  have h := handleCardClick_keeps_order firstReminderDown "visitors" State.initial
    [sampleRecord "old", otherRecord, idLess] (Or.inl rfl) rfl
  ⟨h.1, h.2.2⟩

/-- C5: when the category request answers the array `data` and the reminder
request for the record `R` at position `i`, whose id is truthy, is rejected,
`handleCardClick` still opens the category with a list as long as `data`, in
which position `i` holds `R` unmodified and every position whose reminder
request resolved holds its record with exactly the `reminder_datetime`
answered for it. -/
theorem handleCardClick_isolates_failure (remote : Remote) (cardType : String) (s : State)
    (data : List CustomerRecord) (i : Nat) (R : CustomerRecord) (id : String)
    (hcard : cardType = "visitors" ∨ cardType = "shoppers")
    (hfetch : remote.listByCategory cardType = some (.array data))
    (hR : data[i]? = some R) (hid : R.id = some id) (htruthy : jsTruthy R.id = true)
    (hfail : remote.getReminder i id = none) :
    (handleCardClick remote cardType s).1.isCardClicked = some cardType ∧
    (handleCardClick remote cardType s).1.loading = false ∧
    (handleCardClick remote cardType s).1.clickedCardData.length = data.length ∧
    (handleCardClick remote cardType s).1.clickedCardData[i]? = some R ∧
    ∀ (j : Nat) (item : CustomerRecord) (jid : String) (reminder : Option String),
      data[j]? = some item → item.id = some jid →
      jsTruthy item.id = true → remote.getReminder j jid = some reminder →
      (handleCardClick remote cardType s).1.clickedCardData[j]?
        = some { item with reminder_datetime := reminder } := by
  rw [handleCardClick_list remote cardType s data hcard hfetch]
  refine ⟨rfl, rfl, enrichFrom_length remote data 0, ?_, ?_⟩
  · rw [hid] at htruthy
    simp [enrichFrom_getElem?, hR, enrichItem, hid, htruthy, hfail]
  · intro j item jid reminder hj hjid hjt hget
    rw [hjid] at hjt
    simp [enrichFrom_getElem?, hj, enrichItem, hjid, hjt, hget]

/-- C5 at a concrete service: the reminder of the first record fails, the
second record gets its reminder, the first is kept as it was. -/
theorem handleCardClick_isolates_failure_witness :
    (handleCardClick firstReminderDown "visitors" State.initial).1.clickedCardData[0]?
      = some (sampleRecord "old") ∧
    (handleCardClick firstReminderDown "visitors" State.initial).1.clickedCardData[1]?
      = some { otherRecord with reminder_datetime := some "2024-01-01T10:00:00" } :=
  have h := handleCardClick_isolates_failure firstReminderDown "visitors" State.initial
    [sampleRecord "old", otherRecord, idLess] 0 (sampleRecord "old") "7" (Or.inl rfl) rfl rfl rfl
    (by decide) rfl
  ⟨h.2.2.2.1, h.2.2.2.2 1 otherRecord "8" (some "2024-01-01T10:00:00") rfl rfl (by decide) rfl⟩

/-- C6 as stated fails: a record without an id that the category request sends
is in the list `handleCardClick` stores. -/
theorem handleCardClick_keeps_id_less_counterexample :
    firstReminderDown.listByCategory "visitors"
      = some (.array [sampleRecord "old", otherRecord, idLess]) ∧
    idLess.id = none ∧
    (handleCardClick firstReminderDown "visitors" State.initial).1.clickedCardData.length = 3 ∧
    (handleCardClick firstReminderDown "visitors" State.initial).1.clickedCardData[2]?
      = some idLess := by
  decide

/-- C6, amended: when the category request answers the array `data`, every
record of `data` with a falsy id (missing or empty) stays in the list that
`handleCardClick` stores, unmodified and at its position; it is
`renderDataList` that leaves such records out: each of its rows shows a
record with a truthy id. -/
theorem handleCardClick_id_less_kept_not_rendered (remote : Remote) (cardType : String)
    (s : State) (data : List CustomerRecord)
    (hcard : cardType = "visitors" ∨ cardType = "shoppers")
    (hfetch : remote.listByCategory cardType = some (.array data)) :
    (∀ (i : Nat) (item : CustomerRecord), data[i]? = some item → jsTruthy item.id = false →
      (handleCardClick remote cardType s).1.clickedCardData[i]? = some item) ∧
    (∀ item : CustomerRecord, some item ∈ renderDataList (handleCardClick remote cardType s).1 →
      jsTruthy item.id = true) := by
  constructor
  · rw [handleCardClick_list remote cardType s data hcard hfetch]
    intro i item hi hfalsy
    simp only [enrichFrom_getElem?, hi, Option.map_some']
    unfold enrichItem
    split
    · next id hid =>
      rw [hid] at hfalsy
      simp [hfalsy]
    · rfl
  · intro item hmem
    unfold renderDataList at hmem
    rw [List.mem_map] at hmem
    obtain ⟨row, _, hrow⟩ := hmem
    by_cases ht : jsTruthy row.id = true
    · simp [ht] at hrow
      rw [← hrow]
      exact ht
    · simp [ht] at hrow

/-- C6 amended, at a concrete service: the record without an id is stored at
its position and is not among the rendered rows. -/
theorem handleCardClick_id_less_kept_not_rendered_witness :
    (handleCardClick firstReminderDown "visitors" State.initial).1.clickedCardData[2]?
      = some idLess ∧
    some idLess ∉ renderDataList (handleCardClick firstReminderDown "visitors" State.initial).1 :=
  have h := handleCardClick_id_less_kept_not_rendered firstReminderDown "visitors" State.initial
    [sampleRecord "old", otherRecord, idLess] (Or.inl rfl) rfl
  ⟨h.1 2 idLess rfl rfl, fun hmem => absurd (h.2 idLess hmem) (by decide)⟩

end CustomerCountDisplay
